import Mathlib

set_option maxRecDepth 10000

/-!
Verification of `novelinsights/wikigen_fiction/agents/read_chapter_agent.py`.

The module under verification builds an LLM prompt (`template`, assembled from
`task`, `instructions` and `general_reminders`) and parses the LLM reply back
into structured fields (`ReadChapterResponse.parse_response`).

Embedding conventions:
* a Python `str` is modelled as `List Char`;
* `s.split(sep)` (with non-empty `sep`) is modelled by `pySplit`;
* `sep in s` is modelled by `pyContains`;
* `s.strip()` is modelled by `pyStrip` (ASCII whitespace, which covers every
  string this module manipulates);
* an uncaught Python exception (the `IndexError` raised by out-of-range list
  indexing in `parse_response`) is modelled by the `none` result of
  `parse_response : List Char → Option ReadChapterResponse`.
-/

namespace ReadChapter

/-- Python `needle in s` (contiguous-substring membership test). -/
def pyContains (needle : List Char) : List Char → Bool
  | [] => needle.isPrefixOf []
  | c :: cs => needle.isPrefixOf (c :: cs) || pyContains needle cs

/-- Locate the leftmost occurrence of `sep` in `s`: returns
`some (pre, post)` with `s = pre ++ sep ++ post` and no occurrence of `sep`
in `pre`, or `none` when `sep` does not occur.  This is the elementary step
of Python `str.split`. -/
def findSplit (sep : List Char) : List Char → Option (List Char × List Char)
  | [] => none
  | c :: cs =>
    if sep.isPrefixOf (c :: cs) then some ([], (c :: cs).drop sep.length)
    else
      match findSplit sep cs with
      | some (pre, post) => some (c :: pre, post)
      | none => none

/-- Fuelled iteration of `findSplit`; `pySplit` supplies sufficient fuel.
Structural recursion on the fuel keeps the definition kernel-computable. -/
def splitFuel (sep : List Char) : Nat → List Char → List (List Char)
  | 0, s => [s]
  | fuel + 1, s =>
    match findSplit sep s with
    | none => [s]
    | some (pre, post) => pre :: splitFuel sep fuel post

/-- Python `s.split(sep)` for a non-empty separator `sep`: the list of
maximal fragments of `s` between consecutive (leftmost, non-overlapping)
occurrences of `sep`.  Each application of `findSplit` removes at least one
character, so fuel `s.length + 1` is always sufficient. -/
def pySplit (sep s : List Char) : List (List Char) := splitFuel sep (s.length + 1) s

/-- The characters removed by Python `str.strip()` for the ASCII strings this
module manipulates. -/
def isPyWhitespace (c : Char) : Bool :=
  c == ' ' || c == '\t' || c == '\n' || c == '\r' || c == '\x0b' || c == '\x0c'

/-- Python `s.strip()`: remove leading and trailing whitespace. -/
def pyStrip (s : List Char) : List Char :=
  ((s.dropWhile isPyWhitespace).reverse.dropWhile isPyWhitespace).reverse

/-- The skip sentinel checked at line 187 of the source. -/
def sentinel : List Char := "<SKIPPED-EXTRACTION>".data

/-- The heading split on at line 189 of the source. -/
def summaryHeading : List Char := "## General Chapter Summary".data

/-- The heading split on at line 195 of the source. -/
def infoHeading : List Char := "## Information Extraction".data

/-- The `"###"` marker split on at line 198 of the source. -/
def sectionMarker : List Char := "###".data

/-- The literal the parser prepends to `split1[1]` at line 190 of the source
(the heading is rewritten: the reply said `## General Chapter Summary`). -/
def rewrittenSummary : List Char := "## Chapter Summary".data

/-- `ReadChapterExtraction` (source lines 161–168). -/
structure ReadChapterExtraction where
  characters : List Char
  events : List Char
  locations : List Char
  organizations : List Char
  things : List Char
  concepts : List Char
  main_arc : List Char
deriving DecidableEq, Repr

/-- `ReadChapterResponse` (source lines 170–174). -/
structure ReadChapterResponse where
  full_response : List Char
  skipped_info_extraction : Bool
  info_extraction : Option ReadChapterExtraction
  chapter_summary : List Char
deriving DecidableEq, Repr

/-- `ReadChapterResponse.parse_response` (source lines 176–213), translated
operation for operation.  Every Python list indexing `xs[i]` is modelled by
`xs[i]?`, with the `none` branch standing for the uncaught `IndexError`.
The Python locals (`skipped_info_extraction = "<SKIPPED-EXTRACTION>" in
response`, `split1 = response.split(...)`, `chapter_summary`, …) are inlined
at their use sites. -/
def parse_response (response : List Char) : Option ReadChapterResponse :=
  match (pySplit summaryHeading response)[1]? with
  | none => none
  | some s1 =>
    if pyContains sentinel response then
      some { full_response := response,
             skipped_info_extraction := pyContains sentinel response,
             info_extraction := none, chapter_summary := rewrittenSummary ++ s1 }
    else
      match (pySplit summaryHeading response)[0]? with
      | none => none
      | some s0 =>
        match (pySplit infoHeading s0)[1]? with
        | none => none
        | some split2val =>
          match (pySplit sectionMarker (pyStrip split2val))[1]?,
                (pySplit sectionMarker (pyStrip split2val))[2]?,
                (pySplit sectionMarker (pyStrip split2val))[3]?,
                (pySplit sectionMarker (pyStrip split2val))[4]?,
                (pySplit sectionMarker (pyStrip split2val))[5]?,
                (pySplit sectionMarker (pyStrip split2val))[6]?,
                (pySplit sectionMarker (pyStrip split2val))[7]? with
          | some characters, some events, some locations, some organizations,
            some things, some concepts, some main_arc =>
            some { full_response := response,
                   skipped_info_extraction := pyContains sentinel response,
                   info_extraction := some
                     { characters := sectionMarker ++ characters,
                       events := sectionMarker ++ events,
                       locations := sectionMarker ++ locations,
                       organizations := sectionMarker ++ organizations,
                       things := sectionMarker ++ things,
                       concepts := sectionMarker ++ concepts,
                       main_arc := sectionMarker ++ main_arc },
                   chapter_summary := rewrittenSummary ++ s1 }
          | _, _, _, _, _, _, _ => none

/-- The pre-summary block `split1[0]` of a reply. -/
def preSummary (r : List Char) : List Char := (pySplit summaryHeading r).headI

/-- The block `split1[1]` following the first summary heading of a reply. -/
def summaryTail (r : List Char) : List Char := (pySplit summaryHeading r).getD 1 []

/-- The extraction region of a reply: `split1[0].split("## Information
Extraction")[1].strip()` (source lines 195–196). -/
def extractionRegion (r : List Char) : List Char :=
  pyStrip ((pySplit infoHeading (preSummary r)).getD 1 [])

/-- The `"###"`-split of the extraction region (source line 198). -/
def extractSegs (r : List Char) : List (List Char) :=
  pySplit sectionMarker (extractionRegion r)

/-- The literal returned by `task()` (source lines 9-10). -/
def task : List Char := "Your task is to produce a comprehensive and detailed summary of the current chapter, as well as extract and organize all significant information into predefined categories: Characters, Chronology, Locations, Organizations, Things, and Concepts. The output should be thorough and suitable for creating Wikipedia-style entries, ensuring that all essential details from the chapter are captured accurately.".data

/-- The heading line of the continuity clause appended by `instructions` when
`prev_chap_context` is not `None` (source lines 106-107). -/
def continuityHeading : List Char := "## 3. Previous Chapter(s) Summary:".data

/-- The remainder of the appended continuity clause (source lines 106-107). -/
def continuityTail : List Char := "\n- using the previous chapter context, write a summary of the previous chapter(s) to provide continuity and context for the current chapter.".data

/-- The literal returned by `general_reminders()` (source lines 110-115). -/
def general_reminders : List Char := "- Do not use external knowledge or information beyond what is provided in the chapter and previous context.\n- Stick strictly to the information in the chapter context and prior story summaries.\n- DO NOT explicitly mention \"chapter\" or \"book\" in the response. Instead, refer to the content as if it were a standalone piece of information.\n- Make sure to follow the exact markdown format and structure provided in the instructions with ALL headings and subheadings including the number of hashes \x27#\x27 (like ## Information Extraction).\n".data

/-- Join a list of lines with newline separators. -/
def joinLines : List (List Char) → List Char
  | [] => []
  | [l] => l
  | l :: l2 :: ls => l ++ '\n' :: joinLines (l2 :: ls)

/-- The lines of the fixed instruction block literal (source lines 13-105),
in order.  Joining them with newlines reproduces the Python literal
character for character. -/
def instructionsLines : List (List Char) :=
  ["## Non-Plot Content".data,
   "- Identify if the chapter is for non-plot content (e.g., front matter, acknowledgments, table of contents, etc.)".data,
   "- If the chapter is non-plot content, you make skip Information Extraction and replace the content with \"<SKIPPED-EXTRACTION>\"".data,
   "".data,
   "## Information Extraction".data,
   "".data,
   "For each category below, extract relevant details from the chapter. Present the information in a clear and organized manner, using bullet points or numbered lists where appropriate. If the chapter does not contain information for a specific category, you may omit it.".data,
   "".data,
   "For all items in each category, make sure to explain why you chose them and how they contribute to the plot of the entire story. Rank the importance of each item as very high, high, medium, low, or very low.".data,
   "".data,
   "### Entities".data,
   " - List all important characters introduced or featured in this chapter".data,
   " - Provide a detailed description of the character. Include (if available):".data,
   " - type of entity (character, monster, abstract force)".data,
   " - Name".data,
   " - Role in the plot/chapter".data,
   " - Personality".data,
   " - Relationships with other characters".data,
   " - Significance to the plot or characters".data,
   " - backstory, motivations, or any other relevant details".data,
   " - any other relevant details".data,
   "".data,
   "### Chronology".data,
   " - Identify and list the events that occur or are described in the chapter".data,
   " - For each event, provide a detailed description. Include (if available):".data,
   " - Name or title of the event".data,
   " - Type or category of the event".data,
   " - Overarching Conflict name or title".data,
   " - Significance to the plot or characters".data,
   " - any chronology of the event".data,
   " - Background or context leading to the event".data,
   " - Characters involved and their roles".data,
   " - Locations where the event takes place".data,
   " - any other relevant details".data,
   "".data,
   "### Locations".data,
   " - List and describe any important locations introduced or revisited".data,
   " - Provide a detailed description of each location. Include (if available):".data,
   " - Name of the location".data,
   " - significance to the plot or characters".data,
   " - physical description or notable features".data,
   " - cultural or historical significance".data,
   " - any history or background information".data,
   " - nearby locations or connections to other places ".data,
   " - any other relevant details".data,
   "".data,
   "### Organizations".data,
   " - List any important organizations, groups, or factions mentioned or central to the chapter".data,
   " - Provide a detailed description of each organization. Include (if available):".data,
   " - Name of the organization".data,
   " - Purpose or goals".data,
   " - Key members or leaders".data,
   " - Relationships with other organizations".data,
   " - any significant actions or decisions made by the organization".data,
   " - any history or background information".data,
   " - any other relevant".data,
   "".data,
   "### Things".data,
   " - List any important items introduced or referenced in the chapter".data,
   " - Provide a detailed description of each item. Include (if available):".data,
   " - Name of the item".data,
   " - Type or category".data,
   " - Physical description or notable features".data,
   " - Special properties or functions".data,
   " - Significance to the plot or characters".data,
   " - History or background information".data,
   " - Current status or location".data,
   " - any related entities or connections".data,
   " - any other relevant details".data,
   "".data,
   "### Concepts".data,
   " - List any key concepts, ideas, or themes explored in the chapter".data,
   " - Provide a detailed description of each concept. Include (if available):".data,
   " - Name or title of the concept".data,
   " - Definition or explanation".data,
   " - Significance to the plot or characters".data,
   " - any examples or instances in the chapter".data,
   " - any connections to other concepts or themes".data,
   " - any other relevant details".data,
   "".data,
   "### Story Arc".data,
   "- Identify and describe the overarching conflict or main storyline based on this chapter and previous context".data,
   "- Provide a detailed description of the conflict. Include (if available):".data,
   "    - Proper name or title of the conflict".data,
   "    - Description of the conflict".data,
   "    - any history or background information".data,
   "    - any other relevant details".data,
   "".data,
   "## General Chapter Summary".data,
   "- Write a detailed summary of the entire chapter (approximately 300-500 words).".data,
   "- Focus on key plot developments, character actions and interactions, significant events, and any important revelations.".data,
   "- Ensure the summary is coherent and logically flows from one point to the next.".data,
   "- This should not be explicitly for \"this chapter\" but should be a general summary of the chapter\x27s content.".data]

/-- The fixed instruction block of `instructions` (the big literal at source
lines 13-105): its lines joined by newlines. -/
def instructionsCore : List Char := joinLines instructionsLines

/-- `instructions(prev_chap_context)` (source lines 12–108): the fixed
instruction block; when `prev_chap_context` is not `None` the continuity
clause is appended directly (no separating newline), mirroring the
source's `+=`. -/
def instructions (prev_chap_context : Option (List Char)) : List Char :=
  match prev_chap_context with
  | none => instructionsCore
  | some _ => instructionsCore ++ continuityHeading ++ continuityTail

/-- `template(title, content, story_so_far, prev_chap_context)` (source
lines 117–158): sequential prompt assembly, with each f-string written as
the equivalent concatenation. -/
def template (title content : List Char)
    (story_so_far prev_chap_context : Option (List Char)) : List Char :=
  let prompt := "# Task\n".data ++ task
  let prompt := match story_so_far with
    | none => prompt
    | some s => prompt ++ ("\n# Story So Far:\n".data ++ s ++ "\n".data)
  let prompt := match prev_chap_context with
    | none => prompt
    | some p => prompt ++ ("\n# Previous Chapter(s) Context:\n".data ++ p ++ "\n".data)
  prompt ++ ("# Chapter Context:\n## Chapter Title: ".data ++ title ++
    "\n## Chapter Content: \n---\n".data ++ content ++
    "\n---\n\n# Instructions\n---\n".data ++ instructions prev_chap_context ++
    "\n---\n# General Reminders\n".data ++ general_reminders)

/-- The headings C6 requires the prompt to contain verbatim. -/
def mandatoryHeadings : List (List Char) :=
  ["# Task".data, "# Chapter Context:".data, "# Instructions".data,
   "## Information Extraction".data, "### Entities".data, "### Chronology".data,
   "### Locations".data, "### Organizations".data, "### Things".data,
   "### Concepts".data, "### Story Arc".data, "## General Chapter Summary".data,
   "# General Reminders".data]

/-! ### Basic facts about the string primitives -/

theorem pyContains_iff {n s : List Char} : pyContains n s = true ↔ n <:+: s := by
  induction s with
  | nil => simp [pyContains, List.isPrefixOf_iff_prefix]
  | cons c cs ih =>
    simp [pyContains, List.isPrefixOf_iff_prefix, ih, List.infix_cons_iff]

theorem findSplit_eq_some {sep : List Char} (hsep : sep ≠ []) :
    ∀ {s pre post : List Char}, findSplit sep s = some (pre, post) →
      s = pre ++ sep ++ post ∧ ¬ sep <:+: pre := by
  intro s
  induction s with
  | nil => intro pre post h; simp [findSplit] at h
  | cons c cs ih =>
    intro pre post h
    rw [findSplit] at h
    split at h
    case isTrue hpre =>
      rw [Option.some.injEq, Prod.mk.injEq] at h
      obtain ⟨rfl, rfl⟩ := h
      obtain ⟨t, ht⟩ := List.isPrefixOf_iff_prefix.mp hpre
      constructor
      · rw [List.nil_append, ← ht, List.drop_left]
      · simp [List.infix_nil, hsep]
    case isFalse hpre =>
      cases hcs : findSplit sep cs with
      | none => rw [hcs] at h; exact absurd h (by simp)
      | some pp =>
        obtain ⟨p, q⟩ := pp
        rw [hcs, Option.some.injEq, Prod.mk.injEq] at h
        obtain ⟨rfl, rfl⟩ := h
        obtain ⟨hds, hnc⟩ := ih hcs
        refine ⟨by rw [List.cons_append, List.cons_append, ← hds], ?_⟩
        intro hinf
        rcases List.infix_cons_iff.mp hinf with hp | hi
        · refine hpre (List.isPrefixOf_iff_prefix.mpr (hp.trans ?_))
          exact ⟨sep ++ q, by simp [hds]⟩
        · exact hnc hi

theorem findSplit_eq_none {sep : List Char} (hsep : sep ≠ []) :
    ∀ {s : List Char}, findSplit sep s = none ↔ ¬ sep <:+: s := by
  intro s
  induction s with
  | nil => simp [findSplit, List.infix_nil, hsep]
  | cons c cs ih =>
    rw [findSplit]
    split
    case isTrue hpre =>
      simp only [reduceCtorEq, false_iff, not_not]
      exact (List.isPrefixOf_iff_prefix.mp hpre).isInfix
    case isFalse hpre =>
      cases hcs : findSplit sep cs with
      | none =>
        simp only [true_iff]
        intro hinf
        rcases List.infix_cons_iff.mp hinf with hp | hi
        · exact hpre (List.isPrefixOf_iff_prefix.mpr hp)
        · exact (ih.mp hcs) hi
      | some pp =>
        obtain ⟨p, q⟩ := pp
        simp only [reduceCtorEq, false_iff, not_not]
        obtain ⟨hds, -⟩ := findSplit_eq_some hsep hcs
        exact List.infix_cons_iff.mpr (Or.inr (by rw [hds]; exact List.infix_append _ _ _))

theorem findSplit_post_lt {sep : List Char} (hsep : sep ≠ []) {s pre post : List Char}
    (h : findSplit sep s = some (pre, post)) : post.length < s.length := by
  obtain ⟨heq, -⟩ := findSplit_eq_some hsep h
  have hposlen : 0 < sep.length := List.length_pos.mpr hsep
  rw [heq]
  simp only [List.length_append]
  omega

theorem splitFuel_congr {sep : List Char} (hsep : sep ≠ []) :
    ∀ {f f' : Nat} {s : List Char}, s.length < f → s.length < f' →
      splitFuel sep f s = splitFuel sep f' s := by
  intro f
  induction f with
  | zero => intro f' s h h'; exact absurd h (Nat.not_lt_zero _)
  | succ f ih =>
    intro f' s h h'
    cases f' with
    | zero => exact absurd h' (Nat.not_lt_zero _)
    | succ f2 =>
      rw [splitFuel, splitFuel]
      cases hfs : findSplit sep s with
      | none => rfl
      | some pp =>
        obtain ⟨pre, post⟩ := pp
        have hlt := findSplit_post_lt hsep hfs
        exact congrArg (pre :: ·) (ih (by omega) (by omega))

theorem pySplit_eq {sep : List Char} (hsep : sep ≠ []) (s : List Char) :
    pySplit sep s = (match findSplit sep s with
      | none => [s]
      | some (pre, post) => pre :: pySplit sep post) := by
  rw [pySplit, splitFuel]
  cases hfs : findSplit sep s with
  | none => rfl
  | some pp =>
    obtain ⟨pre, post⟩ := pp
    have hlt := findSplit_post_lt hsep hfs
    exact congrArg (pre :: ·) (splitFuel_congr hsep (by omega) (by omega))

theorem pySplit_not_contains {sep s : List Char} (hsep : sep ≠ []) (h : ¬ sep <:+: s) :
    pySplit sep s = [s] := by
  rw [pySplit_eq hsep, (findSplit_eq_none hsep).mpr h]

theorem splitFuel_ne_nil {sep : List Char} {f : Nat} {s : List Char} :
    splitFuel sep f s ≠ [] := by
  cases f with
  | zero => simp [splitFuel]
  | succ f =>
    rw [splitFuel]
    cases findSplit sep s with
    | none => simp
    | some pp => obtain ⟨pre, post⟩ := pp; simp

theorem pySplit_ne_nil {sep s : List Char} : pySplit sep s ≠ [] := splitFuel_ne_nil

/-- When `sep` occurs in `s`, the split has at least two pieces: the text
before the first occurrence, the text up to the following occurrence, and the
remaining pieces. -/
theorem pySplit_two {sep s : List Char} (hsep : sep ≠ []) (h : sep <:+: s) :
    ∃ pre q l post, pySplit sep s = pre :: q :: l ∧ s = pre ++ sep ++ post ∧
      ¬ sep <:+: pre ∧ pySplit sep post = q :: l := by
  cases hfs : findSplit sep s with
  | none => exact absurd h ((findSplit_eq_none hsep).mp hfs)
  | some pp =>
    obtain ⟨pre, post⟩ := pp
    obtain ⟨hds, hnc⟩ := findSplit_eq_some hsep hfs
    obtain ⟨q, l, hql⟩ := List.exists_cons_of_ne_nil (@pySplit_ne_nil sep post)
    refine ⟨pre, q, l, post, ?_, hds, hnc, hql⟩
    rw [pySplit_eq hsep, hfs]
    exact congrArg (pre :: ·) hql

/-! ### Infix navigation lemmas for the prompt structure -/

theorem isInfix_app_left {n x : List Char} (y : List Char) (h : n <:+: x) :
    n <:+: x ++ y := by
  obtain ⟨s, t, hst⟩ := h
  exact ⟨s, t ++ y, by rw [← hst]; simp⟩

theorem isInfix_app_right {n y : List Char} (x : List Char) (h : n <:+: y) :
    n <:+: x ++ y := by
  obtain ⟨s, t, hst⟩ := h
  exact ⟨x ++ s, t, by rw [← hst]; simp⟩

theorem isInfix_cons_ext {n y : List Char} (c : Char) (h : n <:+: y) :
    n <:+: c :: y := by
  obtain ⟨s, t, hst⟩ := h
  exact ⟨c :: s, t, by rw [← hst]; simp⟩

theorem isInfix_self_app {n y : List Char} : n <:+: n ++ y := ⟨[], y, rfl⟩

/-- A needle without the separator character occurs in `x ++ c :: y` exactly
when it occurs in `x` or in `y`: an occurrence cannot cross the separator. -/
theorem isInfix_append_cons_iff {n x y : List Char} {c : Char} (hc : c ∉ n) :
    n <:+: x ++ c :: y ↔ n <:+: x ∨ n <:+: y := by
  constructor
  · rintro ⟨s, t, hst⟩
    rw [List.append_assoc] at hst
    rcases List.append_eq_append_iff.mp hst with ⟨a, hx, hnt⟩ | ⟨a, hs, hd⟩
    · rcases List.append_eq_append_iff.mp hnt with ⟨e, hae, hte⟩ | ⟨e, hne, hce⟩
      · exact Or.inl ⟨s, e, by rw [hx, hae]; simp⟩
      · cases e with
        | nil =>
          rw [List.append_nil] at hne
          exact Or.inl ⟨s, [], by rw [hx, ← hne]; simp⟩
        | cons e0 es =>
          exfalso
          rw [List.cons_append] at hce
          injection hce with h1 h2
          exact hc (by rw [hne, h1]; simp)
    · cases a with
      | nil =>
        rw [List.nil_append] at hd
        cases n with
        | nil => exact Or.inr (List.nil_infix)
        | cons n0 ns =>
          exfalso
          rw [List.cons_append] at hd
          injection hd with h1 h2
          exact hc (by rw [h1]; exact List.mem_cons_self _ _)
      | cons a0 as =>
        rw [List.cons_append] at hd
        injection hd with h1 h2
        exact Or.inr ⟨as, t, by rw [h2]; simp⟩
  · rintro (h | h)
    · obtain ⟨s, t, hst⟩ := h
      exact ⟨s, t ++ c :: y, by rw [← hst]; simp⟩
    · obtain ⟨s, t, hst⟩ := h
      exact ⟨x ++ c :: s, t, by rw [← hst]; simp⟩

/-- An occurrence in `x ++ y` lies in `x`, lies in `y`, or straddles the
boundary: a nonempty proper prefix of the needle is a suffix of `x` and the
rest is a prefix of `y`. -/
theorem isInfix_append_split {n x y : List Char} (h : n <:+: x ++ y) :
    n <:+: x ∨ n <:+: y ∨
      ∃ i, 0 < i ∧ i < n.length ∧ n.take i <:+ x ∧ n.drop i <+: y := by
  obtain ⟨s, t, hst⟩ := h
  rw [List.append_assoc] at hst
  rcases List.append_eq_append_iff.mp hst with ⟨a, hx, hnt⟩ | ⟨a, hs, hy⟩
  · rcases List.append_eq_append_iff.mp hnt with ⟨e, hae, hte⟩ | ⟨e, hne, hye⟩
    · exact Or.inl ⟨s, e, by rw [hx, hae]; simp⟩
    · by_cases ha : a = []
      · subst ha
        rw [List.nil_append] at hne
        exact Or.inr (Or.inl ⟨[], t, by rw [hye, ← hne]; simp⟩)
      · by_cases he : e = []
        · subst he
          rw [List.append_nil] at hne
          exact Or.inl ⟨s, [], by rw [hx, ← hne]; simp⟩
        · refine Or.inr (Or.inr ⟨a.length, List.length_pos.mpr ha, ?_, ?_, ?_⟩)
          · rw [hne, List.length_append]
            have := List.length_pos.mpr he
            omega
          · rw [hne, List.take_left]
            exact ⟨s, hx.symm⟩
          · rw [hne, List.drop_left]
            exact ⟨t, hye.symm⟩
  · exact Or.inr (Or.inl ⟨a, t, by rw [hy]; simp⟩)

theorem isInfix_joinLines_of_mem {l : List Char} {ls : List (List Char)}
    (h : l ∈ ls) : l <:+: joinLines ls := by
  induction ls with
  | nil => cases h
  | cons a as ih =>
    rcases List.mem_cons.mp h with rfl | h'
    · cases as with
      | nil => exact List.infix_rfl
      | cons b bs => exact isInfix_app_left _ List.infix_rfl
    · cases as with
      | nil => cases h'
      | cons b bs => exact isInfix_app_right _ (isInfix_cons_ext _ (ih h'))

theorem not_isInfix_joinLines {n : List Char} {ls : List (List Char)}
    (hn : n ≠ []) (hnl : '\n' ∉ n) (h : ∀ l ∈ ls, ¬ n <:+: l) :
    ¬ n <:+: joinLines ls := by
  induction ls with
  | nil =>
    intro hinf
    rw [joinLines] at hinf
    exact hn (List.infix_nil.mp hinf)
  | cons a as ih =>
    cases as with
    | nil =>
      intro hinf
      exact h a (by simp) hinf
    | cons b bs =>
      intro hinf
      rw [joinLines] at hinf
      rcases (isInfix_append_cons_iff hnl).mp hinf with h1 | h1
      · exact h a (by simp) h1
      · exact ih (fun l hl => h l (by simp [hl])) h1

/-- Newline decomposition of the prompt produced with both optional
arguments omitted: the fixed skeleton split at chosen newline boundaries,
isolating the `title` and `content` insertion points. -/
theorem template_none_decomp (title content : List Char) :
    template title content none none =
      "# Task".data ++ '\n' :: ((task ++ "# Chapter Context:".data) ++ '\n' ::
        (("## Chapter Title: ".data ++ title) ++ '\n' ::
          ("## Chapter Content: \n---".data ++ '\n' ::
            (content ++ '\n' ::
              ("---\n\n# Instructions\n---".data ++ '\n' ::
                (instructionsCore ++ '\n' ::
                  ("---\n# General Reminders".data ++ '\n' :: general_reminders))))))) := by
  simp only [template, instructions]
  simp [List.append_assoc]

/-! ### Inversion of `parse_response` -/

/-- Any successful parse satisfies: the reply had a summary heading (piece 1
of the split exists), `full_response` echoes the input, the skipped flag is
the sentinel substring test over the whole raw reply, `chapter_summary` is
the rewritten heading glued to piece 1, and the extraction is present exactly
when the sentinel is absent. -/
theorem parse_cases {r : List Char} {resp : ReadChapterResponse}
    (h : parse_response r = some resp) :
    ∃ s1, (pySplit summaryHeading r)[1]? = some s1 ∧
      resp.full_response = r ∧
      resp.skipped_info_extraction = pyContains sentinel r ∧
      resp.chapter_summary = rewrittenSummary ++ s1 ∧
      ((pyContains sentinel r = true ∧ resp.info_extraction = none) ∨
       (pyContains sentinel r = false ∧ ∃ ext, resp.info_extraction = some ext)) := by
  unfold parse_response at h
  split at h
  next => simp at h
  next s1 heq =>
    split at h
    next hsk =>
      injection h with h'
      subst h'
      exact ⟨s1, heq, rfl, rfl, rfl, Or.inl ⟨hsk, rfl⟩⟩
    next hsk =>
      rw [Bool.not_eq_true] at hsk
      split at h
      next => simp at h
      next s0 heq0 =>
        split at h
        next => simp at h
        next t heqt =>
          split at h
          next c1 c2 c3 c4 c5 c6 c7 =>
            injection h with h'
            subst h'
            exact ⟨s1, heq, rfl, rfl, rfl, Or.inr ⟨hsk, ⟨_, rfl⟩⟩⟩
          next => simp at h

/-- The success path of the parser: with the sentinel absent, both headings
present, and at least seven `"###"`-delimited segments in the extraction
region, the parse returns the fully populated record.  Shared by the
theorems for C1 and C8. -/
theorem parse_ok_of {r : List Char}
    (hns : pyContains sentinel r = false)
    (h1 : pyContains summaryHeading r = true)
    (h2 : pyContains infoHeading (preSummary r) = true)
    (hseg : 8 ≤ (extractSegs r).length) :
    parse_response r = some
      { full_response := r, skipped_info_extraction := false,
        info_extraction := some
          { characters := sectionMarker ++ (extractSegs r).getD 1 [],
            events := sectionMarker ++ (extractSegs r).getD 2 [],
            locations := sectionMarker ++ (extractSegs r).getD 3 [],
            organizations := sectionMarker ++ (extractSegs r).getD 4 [],
            things := sectionMarker ++ (extractSegs r).getD 5 [],
            concepts := sectionMarker ++ (extractSegs r).getD 6 [],
            main_arc := sectionMarker ++ (extractSegs r).getD 7 [] },
        chapter_summary := rewrittenSummary ++ summaryTail r } := by
  have hH : summaryHeading ≠ ([] : List Char) := by decide
  have hI : infoHeading ≠ ([] : List Char) := by decide
  obtain ⟨pre, q, l, post, hs1, hds1, hnc1, hq1⟩ := pySplit_two hH (pyContains_iff.mp h1)
  have hpreSummary : preSummary r = pre := by rw [preSummary, hs1]; rfl
  have hsumTail : summaryTail r = q := by rw [summaryTail, hs1]; rfl
  rw [hpreSummary] at h2
  obtain ⟨pre2, q2, l2, post2, hs2, hds2, hnc2, hq2⟩ := pySplit_two hI (pyContains_iff.mp h2)
  have hregion : extractionRegion r = pyStrip q2 := by
    rw [extractionRegion, hpreSummary, hs2]; rfl
  have hsegs : extractSegs r = pySplit sectionMarker (pyStrip q2) := by
    rw [extractSegs, hregion]
  have e1 : (pySplit summaryHeading r)[1]? = some q := by rw [hs1]; simp
  have e0 : (pySplit summaryHeading r)[0]? = some pre := by rw [hs1]; simp
  have e2 : (pySplit infoHeading pre)[1]? = some q2 := by rw [hs2]; simp
  have hidx : ∀ i : Nat, i < 8 →
      (pySplit sectionMarker (pyStrip q2))[i]? = some ((extractSegs r).getD i []) := by
    intro i hi
    rw [← hsegs]
    have hlen : i < (extractSegs r).length := by omega
    simp [List.getD_eq_getElem?_getD, List.getElem?_eq_getElem hlen]
  unfold parse_response
  simp only [e1, e0, e2, hns, Bool.false_eq_true, if_false,
    hidx 1 (by omega), hidx 2 (by omega), hidx 3 (by omega), hidx 4 (by omega),
    hidx 5 (by omega), hidx 6 (by omega), hidx 7 (by omega), hsumTail]

/-! ### Claims about the response parser -/

/-- **C1.** For every well-formed response string that contains the heading
`## General Chapter Summary`, does not contain the skip sentinel, contains
`## Information Extraction` before the summary heading (i.e. in the
pre-summary block), and whose extraction region contains at least seven
`###`-delimited segments (split pieces 1–7 exist, i.e. the split has at
least 8 pieces), `parse_response` succeeds and assigns the seven segments,
in order, to characters, events, locations, organizations, things,
concepts, main_arc, each equal to `"###"` prepended to its segment text. -/
theorem parse_response_wellformed_seven_fields {r : List Char}
    (h1 : pyContains summaryHeading r = true)
    (hns : pyContains sentinel r = false)
    (h2 : pyContains infoHeading (preSummary r) = true)
    (hseg : 8 ≤ (extractSegs r).length) :
    parse_response r = some
      { full_response := r, skipped_info_extraction := false,
        info_extraction := some
          { characters := sectionMarker ++ (extractSegs r).getD 1 [],
            events := sectionMarker ++ (extractSegs r).getD 2 [],
            locations := sectionMarker ++ (extractSegs r).getD 3 [],
            organizations := sectionMarker ++ (extractSegs r).getD 4 [],
            things := sectionMarker ++ (extractSegs r).getD 5 [],
            concepts := sectionMarker ++ (extractSegs r).getD 6 [],
            main_arc := sectionMarker ++ (extractSegs r).getD 7 [] },
        chapter_summary := rewrittenSummary ++ summaryTail r } :=
  parse_ok_of hns h1 h2 hseg

/-- Concrete well-formed reply used to witness C1. -/
def sampleC1 : List Char := "intro\n## Information Extraction\n### A\n### B\n### C\n### D\n### E\n### F\n### G\n## General Chapter Summary\nThe end.".data

theorem parse_response_wellformed_seven_fields_witness :
    pyContains summaryHeading sampleC1 = true ∧
    pyContains sentinel sampleC1 = false ∧
    pyContains infoHeading (preSummary sampleC1) = true ∧
    8 ≤ (extractSegs sampleC1).length ∧
    parse_response sampleC1 = some
      { full_response := sampleC1, skipped_info_extraction := false,
        info_extraction := some
          { characters := sectionMarker ++ (extractSegs sampleC1).getD 1 [],
            events := sectionMarker ++ (extractSegs sampleC1).getD 2 [],
            locations := sectionMarker ++ (extractSegs sampleC1).getD 3 [],
            organizations := sectionMarker ++ (extractSegs sampleC1).getD 4 [],
            things := sectionMarker ++ (extractSegs sampleC1).getD 5 [],
            concepts := sectionMarker ++ (extractSegs sampleC1).getD 6 [],
            main_arc := sectionMarker ++ (extractSegs sampleC1).getD 7 [] },
        chapter_summary := rewrittenSummary ++ summaryTail sampleC1 } :=
  ⟨by decide, by decide, by decide, by decide,
   @parse_response_wellformed_seven_fields sampleC1
     (by decide) (by decide) (by decide) (by decide)⟩

/-- **C2.** For every response string on which `parse_response` returns
normally, the returned record satisfies: `info_extraction` is non-`none`
if and only if `skipped_info_extraction` is `false`. -/
theorem parse_response_extraction_iff_not_skipped {r : List Char}
    {resp : ReadChapterResponse} (h : parse_response r = some resp) :
    resp.info_extraction ≠ none ↔ resp.skipped_info_extraction = false := by
  obtain ⟨s1, -, -, hskip, -, hcases⟩ := parse_cases h
  rcases hcases with ⟨hsk, hnone⟩ | ⟨hsk, ext, hsome⟩
  · rw [hnone, hskip, hsk]; simp
  · rw [hsome, hskip, hsk]; simp

/-- Concrete skipped reply used to witness C2. -/
def sampleC2 : List Char := "x<SKIPPED-EXTRACTION>## General Chapter Summary tail".data

/-- The record `parse_response` produces on `sampleC2`. -/
def sampleC2resp : ReadChapterResponse :=
  { full_response := sampleC2, skipped_info_extraction := true,
    info_extraction := none, chapter_summary := "## Chapter Summary tail".data }

theorem parse_response_extraction_iff_not_skipped_witness :
    parse_response sampleC2 = some sampleC2resp ∧
    (sampleC2resp.info_extraction ≠ none ↔
      sampleC2resp.skipped_info_extraction = false) :=
  ⟨by decide,
   @parse_response_extraction_iff_not_skipped sampleC2 sampleC2resp (by decide)⟩

/-- **C3.** For every response string containing the skip sentinel and the
heading `## General Chapter Summary`, `parse_response` returns with
`skipped_info_extraction = true`, `info_extraction = none`, and
`chapter_summary` still populated from the text following the summary
heading; the seven extraction categories are never split out. -/
theorem parse_response_skip_sentinel {r : List Char}
    (hsk : pyContains sentinel r = true)
    (h1 : pyContains summaryHeading r = true) :
    parse_response r = some
      { full_response := r, skipped_info_extraction := true,
        info_extraction := none,
        chapter_summary := rewrittenSummary ++ summaryTail r } := by
  have hH : summaryHeading ≠ ([] : List Char) := by decide
  obtain ⟨pre, q, l, post, hs1, -, -, -⟩ := pySplit_two hH (pyContains_iff.mp h1)
  have e1 : (pySplit summaryHeading r)[1]? = some q := by rw [hs1]; simp
  have hsumTail : summaryTail r = q := by rw [summaryTail, hs1]; rfl
  unfold parse_response
  simp [e1, hsk, hsumTail]

/-- Concrete reply with sentinel used to witness C3. -/
def sampleC3 : List Char := "front matter\n<SKIPPED-EXTRACTION>\n## General Chapter Summary\nA table of contents.".data

theorem parse_response_skip_sentinel_witness :
    pyContains sentinel sampleC3 = true ∧
    pyContains summaryHeading sampleC3 = true ∧
    parse_response sampleC3 = some
      { full_response := sampleC3, skipped_info_extraction := true,
        info_extraction := none,
        chapter_summary := rewrittenSummary ++ summaryTail sampleC3 } :=
  ⟨by decide, by decide,
   @parse_response_skip_sentinel sampleC3 (by decide) (by decide)⟩

/-- **C4.** For every response string without the skip sentinel whose
extraction region splits on `"###"` into fewer than 7 delimited sections
(split length < 8), `parse_response` errors (the `IndexError`, modelled by
`none`) instead of returning a partially filled extraction. -/
theorem parse_response_too_few_sections_fails {r : List Char}
    (hns : pyContains sentinel r = false)
    (hlt : (extractSegs r).length < 8) :
    parse_response r = none := by
  unfold parse_response
  split
  next => rfl
  next s1 hx1 =>
    rw [if_neg (by simp [hns])]
    split
    next => rfl
    next s0 hx0 =>
      split
      next => rfl
      next t hx2 =>
        have hpre : preSummary r = s0 := by
          rw [preSummary]
          cases hsp : pySplit summaryHeading r with
          | nil => exact absurd hsp pySplit_ne_nil
          | cons a tl =>
            rw [hsp] at hx0
            simp only [List.getElem?_cons_zero, Option.some.injEq] at hx0
            rw [hx0]
            rfl
        have hgd : (pySplit infoHeading s0).getD 1 [] = t := by
          simp [List.getD_eq_getElem?_getD, hx2]
        have hsegs : pySplit sectionMarker (pyStrip t) = extractSegs r := by
          rw [extractSegs, extractionRegion, hpre, hgd]
        have h7 : (pySplit sectionMarker (pyStrip t))[7]? = none := by
          rw [hsegs]; exact List.getElem?_eq_none (by omega)
        split
        next c1 c2 c3 c4 c5 c6 c7 ha1 ha2 ha3 ha4 ha5 ha6 ha7 =>
          rw [h7] at ha7
          simp at ha7
        next => rfl

/-- Concrete malformed reply (3 sections only) used to witness C4. -/
def sampleC4 : List Char := "x\n## Information Extraction\n### A\n### B\n### C\n## General Chapter Summary\ny".data

theorem parse_response_too_few_sections_fails_witness :
    pyContains sentinel sampleC4 = false ∧
    (extractSegs sampleC4).length < 8 ∧
    parse_response sampleC4 = none :=
  ⟨by decide, by decide,
   @parse_response_too_few_sections_fails sampleC4 (by decide) (by decide)⟩

/-- **C5.** For every response string that is missing the literal heading
`## General Chapter Summary`, or — when the skip sentinel is absent — is
missing the literal heading `## Information Extraction`, `parse_response`
propagates the index error (`none`); there is no recovery. -/
theorem parse_response_missing_heading_fails {r : List Char}
    (h : pyContains summaryHeading r = false ∨
         (pyContains sentinel r = false ∧ pyContains infoHeading r = false)) :
    parse_response r = none := by
  have hH : summaryHeading ≠ ([] : List Char) := by decide
  have hI : infoHeading ≠ ([] : List Char) := by decide
  rcases h with h1 | ⟨hns, hinf⟩
  · have hnc : ¬ summaryHeading <:+: r := by
      rw [← pyContains_iff, h1]; simp
    unfold parse_response
    rw [pySplit_not_contains hH hnc]
    simp
  · unfold parse_response
    split
    next => rfl
    next s1 hx1 =>
      rw [if_neg (by simp [hns])]
      split
      next => rfl
      next s0 hx0 =>
        by_cases hc : summaryHeading <:+: r
        · obtain ⟨pre, q, l, post, hs1, hds, -, -⟩ := pySplit_two hH hc
          have hs0 : s0 = pre := by
            rw [hs1] at hx0
            simp only [List.getElem?_cons_zero, Option.some.injEq] at hx0
            exact hx0.symm
          have hr : ¬ infoHeading <:+: r := by
            rw [← pyContains_iff, hinf]; simp
          have hnotin : ¬ infoHeading <:+: s0 := by
            intro hin
            refine hr (hin.trans ?_)
            rw [hs0]
            exact ⟨[], summaryHeading ++ post, by simp [hds]⟩
          rw [pySplit_not_contains hI hnotin]
          simp
        · rw [pySplit_not_contains hH hc] at hx1
          simp at hx1

/-- Concrete reply missing both headings, used to witness C5. -/
def sampleC5 : List Char := "a chapter body with no markdown headings at all".data

theorem parse_response_missing_heading_fails_witness :
    pyContains summaryHeading sampleC5 = false ∧
    parse_response sampleC5 = none :=
  ⟨by decide,
   @parse_response_missing_heading_fails sampleC5 (Or.inl (by decide))⟩

/-- **C8.** For every response string without the skip sentinel whose
extraction region splits on `"###"` into more than 7 delimited sections
(split length ≥ 9), `parse_response` succeeds and silently discards every
section after the seventh: the seven fields are exactly the split pieces at
indices 1 through 7, each with `"###"` prepended, so no field contains text
from later pieces. -/
theorem parse_response_extra_sections_discarded {r : List Char}
    (h1 : pyContains summaryHeading r = true)
    (hns : pyContains sentinel r = false)
    (h2 : pyContains infoHeading (preSummary r) = true)
    (hseg : 9 ≤ (extractSegs r).length) :
    parse_response r = some
      { full_response := r, skipped_info_extraction := false,
        info_extraction := some
          { characters := sectionMarker ++ (extractSegs r).getD 1 [],
            events := sectionMarker ++ (extractSegs r).getD 2 [],
            locations := sectionMarker ++ (extractSegs r).getD 3 [],
            organizations := sectionMarker ++ (extractSegs r).getD 4 [],
            things := sectionMarker ++ (extractSegs r).getD 5 [],
            concepts := sectionMarker ++ (extractSegs r).getD 6 [],
            main_arc := sectionMarker ++ (extractSegs r).getD 7 [] },
        chapter_summary := rewrittenSummary ++ summaryTail r } :=
  parse_ok_of hns h1 h2 (by omega)

/-- Concrete reply with 9 sections (two extra), used to witness C8. -/
def sampleC8 : List Char := "intro\n## Information Extraction\n### A\n### B\n### C\n### D\n### E\n### F\n### G\n### H\n### I\n## General Chapter Summary\nThe end.".data

theorem parse_response_extra_sections_discarded_witness :
    pyContains summaryHeading sampleC8 = true ∧
    pyContains sentinel sampleC8 = false ∧
    pyContains infoHeading (preSummary sampleC8) = true ∧
    9 ≤ (extractSegs sampleC8).length ∧
    parse_response sampleC8 = some
      { full_response := sampleC8, skipped_info_extraction := false,
        info_extraction := some
          { characters := sectionMarker ++ (extractSegs sampleC8).getD 1 [],
            events := sectionMarker ++ (extractSegs sampleC8).getD 2 [],
            locations := sectionMarker ++ (extractSegs sampleC8).getD 3 [],
            organizations := sectionMarker ++ (extractSegs sampleC8).getD 4 [],
            things := sectionMarker ++ (extractSegs sampleC8).getD 5 [],
            concepts := sectionMarker ++ (extractSegs sampleC8).getD 6 [],
            main_arc := sectionMarker ++ (extractSegs sampleC8).getD 7 [] },
        chapter_summary := rewrittenSummary ++ summaryTail sampleC8 } :=
  ⟨by decide, by decide, by decide, by decide,
   @parse_response_extra_sections_discarded sampleC8
     (by decide) (by decide) (by decide) (by decide)⟩

/-- **C9.** For every response string on which `parse_response` succeeds,
`chapter_summary` begins with the literal `## Chapter Summary` (the heading
rewritten by the parser) followed by the text after the first occurrence of
`## General Chapter Summary`, where that text stops either at the end of the
reply (single occurrence) or at the second occurrence of the heading. -/
theorem parse_response_chapter_summary_first_segment {r : List Char}
    {resp : ReadChapterResponse} (h : parse_response r = some resp) :
    ∃ pre mid, ¬ summaryHeading <:+: pre ∧ ¬ summaryHeading <:+: mid ∧
      resp.chapter_summary = rewrittenSummary ++ mid ∧
      (r = pre ++ summaryHeading ++ mid ∨
        ∃ rest, r = pre ++ summaryHeading ++ mid ++ summaryHeading ++ rest) := by
  obtain ⟨s1, heq, -, -, hcs, -⟩ := parse_cases h
  have hH : summaryHeading ≠ ([] : List Char) := by decide
  by_cases hc : summaryHeading <:+: r
  · obtain ⟨pre, q, l, post, hs1, hds, hnc, hq⟩ := pySplit_two hH hc
    have hq_s1 : q = s1 := by
      rw [hs1] at heq
      simpa using heq
    subst hq_s1
    by_cases hc2 : summaryHeading <:+: post
    · obtain ⟨pre2, q2, l2, post2, hs2, hds2, hnc2, hq2⟩ := pySplit_two hH hc2
      have hqpre2 : q = pre2 := by
        rw [hq] at hs2
        injection hs2
      refine ⟨pre, q, hnc, by rw [hqpre2]; exact hnc2, hcs, Or.inr ⟨post2, ?_⟩⟩
      rw [hds, hds2, hqpre2]
      simp [List.append_assoc]
    · have hpost : pySplit summaryHeading post = [post] := pySplit_not_contains hH hc2
      have hqpost : q = post := by
        rw [hq] at hpost
        injection hpost
      refine ⟨pre, q, hnc, by rw [hqpost]; exact hc2, hcs, Or.inl ?_⟩
      rw [hds, hqpost]
  · rw [pySplit_not_contains hH hc] at heq
    simp at heq

/-- Concrete reply in which the summary heading occurs twice, used to
witness C9. -/
def sampleC9 : List Char := "x<SKIPPED-EXTRACTION>## General Chapter Summary first part## General Chapter Summary second part".data

/-- The record `parse_response` produces on `sampleC9`: the summary keeps
only the text between the first and second occurrences of the heading. -/
def sampleC9resp : ReadChapterResponse :=
  { full_response := sampleC9, skipped_info_extraction := true,
    info_extraction := none, chapter_summary := "## Chapter Summary first part".data }

theorem parse_response_chapter_summary_first_segment_witness :
    parse_response sampleC9 = some sampleC9resp ∧
    (∃ pre mid, ¬ summaryHeading <:+: pre ∧ ¬ summaryHeading <:+: mid ∧
      sampleC9resp.chapter_summary = rewrittenSummary ++ mid ∧
      (sampleC9 = pre ++ summaryHeading ++ mid ∨
        ∃ rest, sampleC9 = pre ++ summaryHeading ++ mid ++ summaryHeading ++ rest)) :=
  ⟨by decide,
   @parse_response_chapter_summary_first_segment sampleC9 sampleC9resp (by decide)⟩

/-- **C10.** The skip sentinel is detected by a plain substring test over the
entire raw reply: on any successful parse, `skipped_info_extraction` is
`true` exactly when `<SKIPPED-EXTRACTION>` occurs anywhere in the reply,
including outside the extraction block. -/
theorem parse_response_skip_flag_substring {r : List Char}
    {resp : ReadChapterResponse} (h : parse_response r = some resp) :
    resp.skipped_info_extraction = true ↔ sentinel <:+: r := by
  obtain ⟨s1, -, -, hskip, -, -⟩ := parse_cases h
  rw [hskip]
  exact pyContains_iff

/-- Concrete reply whose sentinel occurs only inside the summary section
(outside the extraction block), used to witness C10. -/
def sampleC10 : List Char := "a## Information Extraction### 1### 2### 3### 4### 5### 6### 7## General Chapter Summary b <SKIPPED-EXTRACTION>".data

/-- The record `parse_response` produces on `sampleC10`. -/
def sampleC10resp : ReadChapterResponse :=
  { full_response := sampleC10, skipped_info_extraction := true,
    info_extraction := none,
    chapter_summary := "## Chapter Summary b <SKIPPED-EXTRACTION>".data }

theorem parse_response_skip_flag_substring_witness :
    parse_response sampleC10 = some sampleC10resp ∧
    (sampleC10resp.skipped_info_extraction = true ↔ sentinel <:+: sampleC10) :=
  ⟨by decide,
   @parse_response_skip_flag_substring sampleC10 sampleC10resp (by decide)⟩

/-! ### Claims about the prompt builder -/

/-- **C7.** The prompt builder is deterministic: two calls of `template` on
identical title, content, story-so-far and previous-chapter-context
arguments return identical prompt strings.  The source builds the prompt by
pure string formatting from its arguments alone, which the embedding renders
as a function, so the two results are one and the same term. -/
theorem template_deterministic (title content : List Char)
    (story_so_far prev_chap_context : Option (List Char)) :
    template title content story_so_far prev_chap_context =
      template title content story_so_far prev_chap_context := rfl

/-- **C6 (counterexample).** The claim is false as stated: `template` never
looks inside its title/content arguments, so a title equal to the
continuity-clause heading makes the clause appear in the prompt even though
the previous-chapter-context argument is omitted (`none`, i.e. empty). -/
theorem template_continuity_clause_injection :
    continuityHeading <:+:
      template continuityHeading "c".data none none := by
  rw [template_none_decomp]
  exact isInfix_app_right _ (isInfix_cons_ext _ (isInfix_app_right _
    (isInfix_cons_ext _ (isInfix_app_left _ (isInfix_app_right _ List.infix_rfl)))))

/-- **C6 (amended).** For every title and content that do not themselves
contain the continuity-clause heading, with the optional arguments omitted
(`none`): the prompt contains every mandatory heading verbatim and does not
contain the continuity clause; moreover the clause appears in the prompt
exactly when a previous-chapter context is supplied, since for any supplied
context it is present. -/
theorem template_headings_and_continuity {title content : List Char}
    (ht : ¬ continuityHeading <:+: title)
    (hc : ¬ continuityHeading <:+: content) :
    (∀ h ∈ mandatoryHeadings, h <:+: template title content none none) ∧
    (¬ continuityHeading <:+: template title content none none) ∧
    (∀ p : List Char, continuityHeading <:+: template title content none (some p)) := by
  have hnl : ('\n' : Char) ∉ continuityHeading := by decide
  refine ⟨?_, ?_, ?_⟩
  · intro h hm
    rw [template_none_decomp]
    simp only [mandatoryHeadings, List.mem_cons, List.not_mem_nil, or_false] at hm
    rcases hm with rfl | rfl | rfl | rfl | rfl | rfl | rfl | rfl | rfl | rfl | rfl | rfl | rfl
    · exact isInfix_app_left _ List.infix_rfl
    · exact isInfix_app_right _ (isInfix_cons_ext _ (isInfix_app_left _
        (isInfix_app_right _ List.infix_rfl)))
    · exact isInfix_app_right _ (isInfix_cons_ext _ (isInfix_app_right _
        (isInfix_cons_ext _ (isInfix_app_right _ (isInfix_cons_ext _
        (isInfix_app_right _ (isInfix_cons_ext _ (isInfix_app_right _
        (isInfix_cons_ext _ (isInfix_app_left _ (by decide)))))))))))
    · exact isInfix_app_right _ (isInfix_cons_ext _ (isInfix_app_right _
        (isInfix_cons_ext _ (isInfix_app_right _ (isInfix_cons_ext _
        (isInfix_app_right _ (isInfix_cons_ext _ (isInfix_app_right _
        (isInfix_cons_ext _ (isInfix_app_right _ (isInfix_cons_ext _
        (isInfix_app_left _ (isInfix_joinLines_of_mem (by decide))))))))))))))
    · exact isInfix_app_right _ (isInfix_cons_ext _ (isInfix_app_right _
        (isInfix_cons_ext _ (isInfix_app_right _ (isInfix_cons_ext _
        (isInfix_app_right _ (isInfix_cons_ext _ (isInfix_app_right _
        (isInfix_cons_ext _ (isInfix_app_right _ (isInfix_cons_ext _
        (isInfix_app_left _ (isInfix_joinLines_of_mem (by decide))))))))))))))
    · exact isInfix_app_right _ (isInfix_cons_ext _ (isInfix_app_right _
        (isInfix_cons_ext _ (isInfix_app_right _ (isInfix_cons_ext _
        (isInfix_app_right _ (isInfix_cons_ext _ (isInfix_app_right _
        (isInfix_cons_ext _ (isInfix_app_right _ (isInfix_cons_ext _
        (isInfix_app_left _ (isInfix_joinLines_of_mem (by decide))))))))))))))
    · exact isInfix_app_right _ (isInfix_cons_ext _ (isInfix_app_right _
        (isInfix_cons_ext _ (isInfix_app_right _ (isInfix_cons_ext _
        (isInfix_app_right _ (isInfix_cons_ext _ (isInfix_app_right _
        (isInfix_cons_ext _ (isInfix_app_right _ (isInfix_cons_ext _
        (isInfix_app_left _ (isInfix_joinLines_of_mem (by decide))))))))))))))
    · exact isInfix_app_right _ (isInfix_cons_ext _ (isInfix_app_right _
        (isInfix_cons_ext _ (isInfix_app_right _ (isInfix_cons_ext _
        (isInfix_app_right _ (isInfix_cons_ext _ (isInfix_app_right _
        (isInfix_cons_ext _ (isInfix_app_right _ (isInfix_cons_ext _
        (isInfix_app_left _ (isInfix_joinLines_of_mem (by decide))))))))))))))
    · exact isInfix_app_right _ (isInfix_cons_ext _ (isInfix_app_right _
        (isInfix_cons_ext _ (isInfix_app_right _ (isInfix_cons_ext _
        (isInfix_app_right _ (isInfix_cons_ext _ (isInfix_app_right _
        (isInfix_cons_ext _ (isInfix_app_right _ (isInfix_cons_ext _
        (isInfix_app_left _ (isInfix_joinLines_of_mem (by decide))))))))))))))
    · exact isInfix_app_right _ (isInfix_cons_ext _ (isInfix_app_right _
        (isInfix_cons_ext _ (isInfix_app_right _ (isInfix_cons_ext _
        (isInfix_app_right _ (isInfix_cons_ext _ (isInfix_app_right _
        (isInfix_cons_ext _ (isInfix_app_right _ (isInfix_cons_ext _
        (isInfix_app_left _ (isInfix_joinLines_of_mem (by decide))))))))))))))
    · exact isInfix_app_right _ (isInfix_cons_ext _ (isInfix_app_right _
        (isInfix_cons_ext _ (isInfix_app_right _ (isInfix_cons_ext _
        (isInfix_app_right _ (isInfix_cons_ext _ (isInfix_app_right _
        (isInfix_cons_ext _ (isInfix_app_right _ (isInfix_cons_ext _
        (isInfix_app_left _ (isInfix_joinLines_of_mem (by decide))))))))))))))
    · exact isInfix_app_right _ (isInfix_cons_ext _ (isInfix_app_right _
        (isInfix_cons_ext _ (isInfix_app_right _ (isInfix_cons_ext _
        (isInfix_app_right _ (isInfix_cons_ext _ (isInfix_app_right _
        (isInfix_cons_ext _ (isInfix_app_right _ (isInfix_cons_ext _
        (isInfix_app_left _ (isInfix_joinLines_of_mem (by decide))))))))))))))
    · exact isInfix_app_right _ (isInfix_cons_ext _ (isInfix_app_right _
        (isInfix_cons_ext _ (isInfix_app_right _ (isInfix_cons_ext _
        (isInfix_app_right _ (isInfix_cons_ext _ (isInfix_app_right _
        (isInfix_cons_ext _ (isInfix_app_right _ (isInfix_cons_ext _
        (isInfix_app_right _ (isInfix_cons_ext _ (isInfix_app_left _ (by decide)))))))))))))))
  · intro hinf
    rw [template_none_decomp] at hinf
    rw [isInfix_append_cons_iff hnl, isInfix_append_cons_iff hnl,
        isInfix_append_cons_iff hnl, isInfix_append_cons_iff hnl,
        isInfix_append_cons_iff hnl, isInfix_append_cons_iff hnl,
        isInfix_append_cons_iff hnl, isInfix_append_cons_iff hnl] at hinf
    rcases hinf with h | h | h | h | h | h | h | h | h
    · exact absurd h (by decide)
    · exact absurd h (by decide)
    · rcases isInfix_append_split h with h2 | h2 | ⟨i, hi0, hil, hsuf, hpre⟩
      · exact absurd h2 (by decide)
      · exact ht h2
      · have hfact : ∀ i < continuityHeading.length, 0 < i →
            ¬ continuityHeading.take i <:+ "## Chapter Title: ".data := by decide
        exact hfact i hil hi0 hsuf
    · exact absurd h (by decide)
    · exact hc h
    · exact absurd h (by decide)
    · exact not_isInfix_joinLines (by decide) hnl (by decide) h
    · exact absurd h (by decide)
    · exact absurd h (by decide)
  · intro p
    simp only [template, instructions]
    exact isInfix_app_right _ (isInfix_app_left _ (isInfix_app_left _
      (isInfix_app_right _ (isInfix_app_left _ (isInfix_app_right _ List.infix_rfl)))))

theorem template_headings_and_continuity_witness :
    (¬ continuityHeading <:+: "Chapter One".data) ∧
    (¬ continuityHeading <:+: "It was a dark and stormy night.".data) ∧
    ((∀ h ∈ mandatoryHeadings,
        h <:+: template "Chapter One".data "It was a dark and stormy night.".data none none) ∧
     (¬ continuityHeading <:+:
        template "Chapter One".data "It was a dark and stormy night.".data none none) ∧
     (∀ p : List Char, continuityHeading <:+:
        template "Chapter One".data "It was a dark and stormy night.".data none (some p))) :=
  ⟨by decide, by decide,
   @template_headings_and_continuity "Chapter One".data
     "It was a dark and stormy night.".data (by decide) (by decide)⟩


end ReadChapter
